import Mathlib

/-
Verification development for the runtime core of an agent-execution node:
execution-context hierarchy, workflow tracking, connection management,
async execution bookkeeping, result caching and status normalisation.
The runtime modules themselves are absent from the source tree (only their
test-suites are present), so every definition below is modelled from the
specification, as its doc comment notes.  Generated identifiers (UUIDs in
the implementation) are modelled as natural numbers drawn from a monotone
fresh-id supply that is threaded explicitly.
-/

namespace Playground

/-- Modelled from the spec: the ExecutionContext value object of section 3.
The module playground.execution_context is missing from the sources (only
its tests are present).  A context identifies one call: its execution_id,
the workflow_id shared by the whole chain, a run_id grouping alias, the
name of the unit being executed, and nullable links to the parent. -/
structure ExecutionContext where
  execution_id : Nat
  workflow_id : Nat
  run_id : Nat
  bot_name : String
  parent_execution_id : Option Nat
  parent_workflow_id : Option Nat
deriving Repr, DecidableEq

/-- Modelled from the spec: creation of a root context — a freshly generated
execution_id, a new workflow_id, and no parent links.  The supply argument
is the fresh-id source; the advanced supply is returned alongside. -/
def ExecutionContext.create_new (bot_name : String) (supply : Nat) :
    ExecutionContext × Nat :=
  (⟨supply, supply, supply, bot_name, none, none⟩, supply + 1)

/-- Modelled from the spec: child derivation — a freshly generated
execution_id, workflow_id and run_id inherited unchanged, and parent links
set to the parent's execution_id and workflow_id. -/
def ExecutionContext.create_child_context (p : ExecutionContext) (supply : Nat) :
    ExecutionContext × Nat :=
  (⟨supply, p.workflow_id, p.run_id, p.bot_name,
    some p.execution_id, some p.workflow_id⟩, supply + 1)

/-- Claim C1: a child context derived from a parent has parent_execution_id
equal to the parent's execution_id, parent_workflow_id equal to the parent's
workflow_id, the same workflow_id as the parent, and a freshly generated
execution_id distinct from the parent's (children drawn at distinct fresh
ids are also pairwise distinct, covering concurrent derivation); a root
context has parent_execution_id equal to null. -/
theorem C1_context_hierarchy (p : ExecutionContext) (n : Nat)
    (hfresh : p.execution_id < n) :
    (p.create_child_context n).1.parent_execution_id = some p.execution_id ∧
    (p.create_child_context n).1.parent_workflow_id = some p.workflow_id ∧
    (p.create_child_context n).1.workflow_id = p.workflow_id ∧
    (p.create_child_context n).1.execution_id ≠ p.execution_id ∧
    (∀ m, n ≠ m →
      (p.create_child_context n).1.execution_id ≠
        (p.create_child_context m).1.execution_id) ∧
    (∀ name m,
      (ExecutionContext.create_new name m).1.parent_execution_id = none) := by
  refine ⟨rfl, rfl, rfl, ?_, ?_, fun name m => rfl⟩
  · exact fun h => absurd h.symm (Nat.ne_of_lt hfresh)
  · intro m hm h
    exact hm (by simpa [ExecutionContext.create_child_context] using h)

/-- Witness for C1 at a concrete parent context and fresh supply. -/
theorem C1_context_hierarchy_witness :
    (⟨0, 0, 0, "root", none, none⟩ : ExecutionContext).execution_id < 1 ∧
    ((⟨0, 0, 0, "root", none, none⟩ : ExecutionContext).create_child_context
        1).1.parent_execution_id = some 0 :=
  ⟨by decide,
    (C1_context_hierarchy ⟨0, 0, 0, "root", none, none⟩ 1 (by decide)).1⟩

/-- Lifecycle status carried by a workflow notification. -/
inductive EventStatus where
  | running
  | succeeded
  | failed
deriving Repr, DecidableEq

/-- Modelled from the spec: the payload of a notify_workflow_event call
(section 6) restricted to the fields the claims are about. -/
structure WorkflowEvent where
  execution_id : Nat
  workflow_id : Nat
  parent_execution_id : Option Nat
  parent_workflow_id : Option Nat
  bot_id : String
  status : EventStatus
  error : Option String
deriving Repr, DecidableEq

mutual

/-- A unit of work given to the tracker: its registered name, its own
outcome (a returned value or a raised exception message), and the tracked
child calls its body awaits before returning. -/
inductive UnitTree where
  | mk (name : String) (outcome : Except String String) (calls : UnitForest)

/-- The ordered list of tracked child calls inside a unit body. -/
inductive UnitForest where
  | nil
  | cons (head : UnitTree) (tail : UnitForest)

end

/-- Name of a unit of work. -/
def UnitTree.name : UnitTree → String
  | .mk n _ _ => n

/-- Tracker-visible state: the ambient current execution context slot, the
fresh-id supply, and the list of emitted lifecycle notifications. -/
structure TrackState where
  ambient : Option ExecutionContext
  supply : Nat
  events : List WorkflowEvent

/-- Modelled from the spec: step 1 of execute_with_tracking — read the
ambient context; if absent create a root context, if present derive a
child, and record the unit name on the new context. -/
def deriveContext (name : String) (s : TrackState) : ExecutionContext × Nat :=
  match s.ambient with
  | none => ExecutionContext.create_new name s.supply
  | some p =>
    let c := p.create_child_context s.supply
    ({ c.1 with bot_name := name }, c.2)

/-- The running notification emitted when a tracked unit starts. -/
def startEvent (ctx : ExecutionContext) : WorkflowEvent :=
  ⟨ctx.execution_id, ctx.workflow_id, ctx.parent_execution_id,
    ctx.parent_workflow_id, ctx.bot_name, .running, none⟩

/-- The completion notification emitted when a tracked unit returns or
raises: succeeded on a normal return, failed carrying the error message on
an exception. -/
def completionEvent (ctx : ExecutionContext) (r : Except String String) :
    WorkflowEvent :=
  match r with
  | .ok _ =>
    ⟨ctx.execution_id, ctx.workflow_id, ctx.parent_execution_id,
      ctx.parent_workflow_id, ctx.bot_name, .succeeded, none⟩
  | .error e =>
    ⟨ctx.execution_id, ctx.workflow_id, ctx.parent_execution_id,
      ctx.parent_workflow_id, ctx.bot_name, .failed, some e⟩

mutual

/-- Modelled from the spec: execute_with_tracking of section 4.2.  Derive
the context (root or child of the ambient one), emit a running
notification, install the new context as ambient, run the body (which
awaits its tracked child calls in order), then restore the previous
ambient context and emit succeeded on a normal return or failed carrying
the error message on an exception, re-raising the exception. -/
def execute_with_tracking : UnitTree → TrackState →
    Except String String × TrackState
  | .mk name outcome calls, s =>
    let d := deriveContext name s
    let s1 : TrackState := ⟨some d.1, d.2, s.events ++ [startEvent d.1]⟩
    let br := runCalls calls s1
    let r : Except String String :=
      match br.1 with
      | .error e => .error e
      | .ok _ => outcome
    (r, ⟨s.ambient, br.2.supply, br.2.events ++ [completionEvent d.1 r]⟩)

/-- Modelled from the spec: a unit body awaits its tracked child calls in
order; the first child exception propagates into the body (fail-fast),
otherwise every call returns and the body produces its own outcome. -/
def runCalls : UnitForest → TrackState → Except String String × TrackState
  | .nil, s => (.ok "", s)
  | .cons c rest, s =>
    let hd := execute_with_tracking c s
    match hd.1 with
    | .ok _ => runCalls rest hd.2
    | .error e => (.error e, hd.2)

end

mutual

/-- Untracked reference semantics of a unit of work: run the child calls
fail-fast, then produce the unit's own outcome. -/
def runPlain : UnitTree → Except String String
  | .mk _ outcome calls =>
    match runCallsPlain calls with
    | .error e => .error e
    | .ok _ => outcome

/-- Untracked reference semantics of a body's child-call list. -/
def runCallsPlain : UnitForest → Except String String
  | .nil => .ok ""
  | .cons c rest =>
    match runPlain c with
    | .ok _ => runCallsPlain rest
    | .error e => .error e

end

theorem deriveContext_execution_id (name : String) (s : TrackState) :
    (deriveContext name s).1.execution_id = s.supply := by
  cases h : s.ambient <;>
    simp [deriveContext, h, ExecutionContext.create_new,
      ExecutionContext.create_child_context]

theorem deriveContext_supply (name : String) (s : TrackState) :
    (deriveContext name s).2 = s.supply + 1 := by
  cases h : s.ambient <;>
    simp [deriveContext, h, ExecutionContext.create_new,
      ExecutionContext.create_child_context]

theorem deriveContext_bot_name (name : String) (s : TrackState) :
    (deriveContext name s).1.bot_name = name := by
  cases h : s.ambient <;>
    simp [deriveContext, h, ExecutionContext.create_new,
      ExecutionContext.create_child_context]

theorem deriveContext_parent (name : String) (s : TrackState) :
    (deriveContext name s).1.parent_execution_id =
      Option.map ExecutionContext.execution_id s.ambient := by
  cases h : s.ambient <;>
    simp [deriveContext, h, ExecutionContext.create_new,
      ExecutionContext.create_child_context]

theorem completionEvent_execution_id (ctx : ExecutionContext)
    (r : Except String String) :
    (completionEvent ctx r).execution_id = ctx.execution_id := by
  cases r <;> rfl

theorem completionEvent_bot_id (ctx : ExecutionContext)
    (r : Except String String) :
    (completionEvent ctx r).bot_id = ctx.bot_name := by
  cases r <;> rfl

theorem completionEvent_status_ne_running (ctx : ExecutionContext)
    (r : Except String String) :
    (completionEvent ctx r).status ≠ EventStatus.running := by
  cases r <;> simp [completionEvent]

theorem execute_ambient_restored (u : UnitTree) (s : TrackState) :
    (execute_with_tracking u s).2.ambient = s.ambient := by
  cases u with
  | mk name outcome calls => simp only [execute_with_tracking]

mutual

theorem execute_fst_eq_runPlain (u : UnitTree) (s : TrackState) :
    (execute_with_tracking u s).1 = runPlain u := by
  cases u with
  | mk name outcome calls =>
    simp only [execute_with_tracking, runPlain]
    rw [runCalls_fst_eq_plain calls]

theorem runCalls_fst_eq_plain (f : UnitForest) (s : TrackState) :
    (runCalls f s).1 = runCallsPlain f := by
  cases f with
  | nil => rfl
  | cons c rest =>
    simp only [runCalls, runCallsPlain]
    rw [execute_fst_eq_runPlain c s]
    cases h : runPlain c with
    | ok v => simpa using runCalls_fst_eq_plain rest (execute_with_tracking c s).2
    | error e => simp

end

mutual

theorem execute_events_shape (u : UnitTree) (s : TrackState) :
    ∃ mid, (execute_with_tracking u s).2.events =
      s.events ++ ([startEvent (deriveContext u.name s).1] ++ mid ++
        [completionEvent (deriveContext u.name s).1
          (execute_with_tracking u s).1]) := by
  cases u with
  | mk name outcome calls =>
    obtain ⟨t, ht⟩ := runCalls_events_delta calls
      ⟨some (deriveContext name s).1, (deriveContext name s).2,
        s.events ++ [startEvent (deriveContext name s).1]⟩
    refine ⟨t, ?_⟩
    simp only [execute_with_tracking, UnitTree.name]
    rw [ht]
    simp [List.append_assoc]

theorem runCalls_events_delta (f : UnitForest) (s : TrackState) :
    ∃ t, (runCalls f s).2.events = s.events ++ t := by
  cases f with
  | nil => exact ⟨[], by simp [runCalls]⟩
  | cons c rest =>
    obtain ⟨m1, hm1⟩ := execute_events_shape c s
    simp only [runCalls]
    cases h : (execute_with_tracking c s).1 with
    | ok v =>
      obtain ⟨t2, ht2⟩ := runCalls_events_delta rest
        (execute_with_tracking c s).2
      exact ⟨_, by rw [ht2, hm1, List.append_assoc]⟩
    | error e => exact ⟨_, by simpa using hm1⟩

end

/-- State of the tracker right after a unit's running notification: the new
context installed as ambient, the supply advanced, the event appended. -/
def afterStart (name : String) (s : TrackState) : TrackState :=
  ⟨some (deriveContext name s).1, (deriveContext name s).2,
    s.events ++ [startEvent (deriveContext name s).1]⟩

theorem execute_mk_events (name : String) (outcome : Except String String)
    (calls : UnitForest) (s : TrackState) :
    (execute_with_tracking (UnitTree.mk name outcome calls) s).2.events =
      (runCalls calls (afterStart name s)).2.events ++
        [completionEvent (deriveContext name s).1
          (execute_with_tracking (UnitTree.mk name outcome calls) s).1] := by
  simp only [execute_with_tracking, afterStart]

/-- Names of the tracked child calls of a body, in order. -/
def forestNames : UnitForest → List String
  | .nil => []
  | .cons c rest => c.name :: forestNames rest

/-- The tracked child calls a body actually invokes and awaits, each with
the execution_id its derived context receives: under fail-fast awaiting
these are the children up to and including the first failing one, and all
of them when every child returns. -/
def executedChildren : UnitForest → TrackState → List (String × Nat)
  | .nil, _ => []
  | .cons c rest, s =>
    (c.name, s.supply) ::
      (match (execute_with_tracking c s).1 with
        | .ok _ => executedChildren rest (execute_with_tracking c s).2
        | .error _ => [])

theorem runCalls_child_completion :
    ∀ (f : UnitForest) (s : TrackState) (nm : String) (eid : Nat),
      (nm, eid) ∈ executedChildren f s →
      ∃ pre post cEnd,
        (runCalls f s).2.events = pre ++ [cEnd] ++ post ∧
        cEnd.execution_id = eid ∧ cEnd.bot_id = nm ∧
        cEnd.status ≠ EventStatus.running
  | .nil, s, nm, eid, h => by simp [executedChildren] at h
  | .cons c rest, s, nm, eid, h => by
    obtain ⟨mid, hmid⟩ := execute_events_shape c s
    cases hr : (execute_with_tracking c s).1 with
    | ok v =>
      simp only [executedChildren, hr] at h
      rcases List.mem_cons.mp h with heq | htail
      · injection heq with h1 h2
        subst h1
        subst h2
        rw [hr] at hmid
        obtain ⟨t, ht⟩ := runCalls_events_delta rest
          (execute_with_tracking c s).2
        refine ⟨s.events ++ [startEvent (deriveContext c.name s).1] ++ mid,
          t, completionEvent (deriveContext c.name s).1 (Except.ok v),
          ?_, ?_, ?_, completionEvent_status_ne_running _ _⟩
        · simp only [runCalls, hr]
          rw [ht, hmid]
          simp [List.append_assoc]
        · rw [completionEvent_execution_id, deriveContext_execution_id]
        · rw [completionEvent_bot_id, deriveContext_bot_name]
      · obtain ⟨pre, post, cEnd, htr, hid, hbot, hst⟩ :=
          runCalls_child_completion rest (execute_with_tracking c s).2
            nm eid htail
        refine ⟨pre, post, cEnd, ?_, hid, hbot, hst⟩
        simp only [runCalls, hr]
        exact htr
    | error e =>
      simp only [executedChildren, hr] at h
      rcases List.mem_cons.mp h with heq | htail
      · injection heq with h1 h2
        subst h1
        subst h2
        rw [hr] at hmid
        refine ⟨s.events ++ [startEvent (deriveContext c.name s).1] ++ mid,
          [], completionEvent (deriveContext c.name s).1 (Except.error e),
          ?_, ?_, ?_, completionEvent_status_ne_running _ _⟩
        · simp only [runCalls, hr]
          rw [hmid]
          simp [List.append_assoc]
        · rw [completionEvent_execution_id, deriveContext_execution_id]
        · rw [completionEvent_bot_id, deriveContext_bot_name]
      · simp at htail

theorem executedChildren_all_of_ok :
    ∀ (f : UnitForest) (s : TrackState) (v : String),
      runCallsPlain f = Except.ok v →
      (executedChildren f s).map Prod.fst = forestNames f
  | .nil, _, _, _ => rfl
  | .cons c rest, s, v, h => by
    have hc : (execute_with_tracking c s).1 = runPlain c :=
      execute_fst_eq_runPlain c s
    simp only [runCallsPlain] at h
    cases hp : runPlain c with
    | ok w =>
      rw [hp] at h hc
      simp only [executedChildren, hc, forestNames, List.map]
      rw [executedChildren_all_of_ok rest (execute_with_tracking c s).2 v h]
    | error e => rw [hp] at h; exact absurd h (by simp)

/-- Claim C2: for every tracked parent unit whose body invokes tracked
child units and awaits them before returning — any number of children,
covering fan-out/fan-in — each invoked child's succeeded or failed
notification appears strictly before the parent's own completion
notification, which closes the trace; when every child returns, every
child of the body is invoked (the fan-out case); a parent with one nested
succeeding child produces exactly four events in the order
parent-running, child-running, child-succeeded, parent-succeeded; and a
parent with two succeeding children emits both children's running and
succeeded notifications before its own completion. -/
theorem C2_child_completion_before_parent (pname : String)
    (outcome : Except String String) (calls : UnitForest) (s : TrackState) :
    (∀ nm eid, (nm, eid) ∈ executedChildren calls (afterStart pname s) →
      ∃ pre mid2 cEnd pEnd,
        (execute_with_tracking (UnitTree.mk pname outcome calls)
            s).2.events =
          pre ++ [cEnd] ++ mid2 ++ [pEnd] ∧
        cEnd.execution_id = eid ∧ cEnd.bot_id = nm ∧
        cEnd.status ≠ EventStatus.running ∧
        pEnd.execution_id = s.supply ∧ pEnd.bot_id = pname ∧
        pEnd.status ≠ EventStatus.running) ∧
    (∀ v, runCallsPlain calls = Except.ok v →
      (executedChildren calls (afterStart pname s)).map Prod.fst =
        forestNames calls) ∧
    (∀ cname v w,
      ((execute_with_tracking
          (UnitTree.mk pname (Except.ok v)
            (UnitForest.cons (UnitTree.mk cname (Except.ok w) UnitForest.nil)
              UnitForest.nil)) s).2.events.map
            (fun ev => (ev.bot_id, ev.status))) =
        s.events.map (fun ev => (ev.bot_id, ev.status)) ++
          [(pname, EventStatus.running), (cname, EventStatus.running),
            (cname, EventStatus.succeeded), (pname, EventStatus.succeeded)]) ∧
    (∀ c1name c2name v w1 w2,
      ((execute_with_tracking
          (UnitTree.mk pname (Except.ok v)
            (UnitForest.cons (UnitTree.mk c1name (Except.ok w1)
                UnitForest.nil)
              (UnitForest.cons (UnitTree.mk c2name (Except.ok w2)
                UnitForest.nil) UnitForest.nil))) s).2.events.map
            (fun ev => (ev.bot_id, ev.status))) =
        s.events.map (fun ev => (ev.bot_id, ev.status)) ++
          [(pname, EventStatus.running), (c1name, EventStatus.running),
            (c1name, EventStatus.succeeded), (c2name, EventStatus.running),
            (c2name, EventStatus.succeeded),
            (pname, EventStatus.succeeded)]) := by
  refine ⟨?_, ?_, ?_, ?_⟩
  · intro nm eid hmem
    obtain ⟨pre, post, cEnd, htr, hid, hbot, hst⟩ :=
      runCalls_child_completion calls (afterStart pname s) nm eid hmem
    refine ⟨pre, post, cEnd,
      completionEvent (deriveContext pname s).1
        (execute_with_tracking (UnitTree.mk pname outcome calls) s).1,
      ?_, hid, hbot, hst, ?_, ?_,
      completionEvent_status_ne_running _ _⟩
    · rw [execute_mk_events, htr]
    · rw [completionEvent_execution_id, deriveContext_execution_id]
    · rw [completionEvent_bot_id, deriveContext_bot_name]
  · intro v hok
    exact executedChildren_all_of_ok calls (afterStart pname s) v hok
  · intro cname v w
    rcases s with ⟨amb, sup, evs⟩
    cases amb <;>
      simp [execute_with_tracking, runCalls, deriveContext,
        ExecutionContext.create_new, ExecutionContext.create_child_context,
        startEvent, completionEvent]
  · intro c1name c2name v w1 w2
    rcases s with ⟨amb, sup, evs⟩
    cases amb <;>
      simp [execute_with_tracking, runCalls, deriveContext,
        ExecutionContext.create_new, ExecutionContext.create_child_context,
        startEvent, completionEvent]

/-- Witness for C2 at a concrete parent with one invoked child. -/
theorem C2_child_completion_before_parent_witness :
    ("child_bot", 1) ∈
      executedChildren
        (UnitForest.cons (UnitTree.mk "child_bot" (Except.ok "c")
          UnitForest.nil) UnitForest.nil)
        (afterStart "parent_bot" ⟨none, 0, []⟩) ∧
    (∃ pre mid2 cEnd pEnd,
      (execute_with_tracking
          (UnitTree.mk "parent_bot" (Except.ok "p")
            (UnitForest.cons (UnitTree.mk "child_bot" (Except.ok "c")
              UnitForest.nil) UnitForest.nil)) ⟨none, 0, []⟩).2.events =
        pre ++ [cEnd] ++ mid2 ++ [pEnd] ∧
      cEnd.execution_id = 1 ∧ cEnd.bot_id = "child_bot" ∧
      cEnd.status ≠ EventStatus.running ∧
      pEnd.execution_id = 0 ∧ pEnd.bot_id = "parent_bot" ∧
      pEnd.status ≠ EventStatus.running) := by
  have hmem : ("child_bot", 1) ∈
      executedChildren
        (UnitForest.cons (UnitTree.mk "child_bot" (Except.ok "c")
          UnitForest.nil) UnitForest.nil)
        (afterStart "parent_bot" ⟨none, 0, []⟩) := by
    simp [executedChildren, afterStart, deriveContext,
      ExecutionContext.create_new, UnitTree.name]
  exact ⟨hmem,
    (C2_child_completion_before_parent "parent_bot" (Except.ok "p")
      (UnitForest.cons (UnitTree.mk "child_bot" (Except.ok "c")
        UnitForest.nil) UnitForest.nil) ⟨none, 0, []⟩).1
      "child_bot" 1 hmem⟩

/-- Claim C3: a unit run under execute_with_tracking that raises an
exception leads the tracker to emit a failed notification carrying the
error message, with the execution_id of the unit's freshly derived context
and the parent_execution_id pointing at the ambient context's execution_id;
the previous ambient context is restored and the same exception is
re-raised to the immediate caller, never swallowed. -/
theorem C3_failed_notification_and_rethrow (u : UnitTree) (s : TrackState)
    (e : String) (hfail : runPlain u = Except.error e) :
    (execute_with_tracking u s).1 = Except.error e ∧
    (execute_with_tracking u s).2.ambient = s.ambient ∧
    ∃ mid failEv,
      (execute_with_tracking u s).2.events =
        s.events ++
          ([startEvent (deriveContext u.name s).1] ++ mid ++ [failEv]) ∧
      failEv.status = EventStatus.failed ∧
      failEv.error = some e ∧
      failEv.execution_id = s.supply ∧
      failEv.parent_execution_id =
        Option.map ExecutionContext.execution_id s.ambient := by
  have h1 : (execute_with_tracking u s).1 = Except.error e :=
    (execute_fst_eq_runPlain u s).trans hfail
  refine ⟨h1, execute_ambient_restored u s, ?_⟩
  obtain ⟨mid, hmid⟩ := execute_events_shape u s
  rw [h1] at hmid
  refine ⟨mid, completionEvent (deriveContext u.name s).1 (Except.error e),
    hmid, rfl, rfl, ?_, ?_⟩
  · rw [completionEvent_execution_id, deriveContext_execution_id]
  · simpa [completionEvent] using deriveContext_parent u.name s

/-- Witness for C3 at a concrete failing unit and a concrete tracker
state. -/
theorem C3_failed_notification_and_rethrow_witness :
    runPlain (UnitTree.mk "failing_bot" (Except.error "boom")
        UnitForest.nil) = Except.error "boom" ∧
    (execute_with_tracking
        (UnitTree.mk "failing_bot" (Except.error "boom") UnitForest.nil)
        ⟨none, 0, []⟩).1 = Except.error "boom" :=
  ⟨by simp [runPlain, runCallsPlain],
    (C3_failed_notification_and_rethrow
      (UnitTree.mk "failing_bot" (Except.error "boom") UnitForest.nil)
      ⟨none, 0, []⟩ "boom" (by simp [runPlain, runCallsPlain])).1⟩

/-- Status of an outbound asynchronous execution (section 3). -/
inductive ExecutionStatus where
  | queued
  | running
  | succeeded
  | failed
  | cancelled
  | timeout
deriving Repr, DecidableEq

/-- A status is terminal when the execution has finished for good. -/
def ExecutionStatus.isTerminal : ExecutionStatus → Bool
  | .succeeded => true
  | .failed => true
  | .cancelled => true
  | .timeout => true
  | _ => false

/-- A JSON-like object payload; the empty object is the empty list. -/
abbrev Payload := List (String × String)

/-- Execution timing metrics: submission time and terminal time. -/
structure ExecMetrics where
  start_time : Nat
  end_time : Option Nat
deriving Repr, DecidableEq

/-- Modelled from the spec: the ExecutionState record of section 3.  The
module playground.execution_state is missing from the sources (only its
tests are present). -/
structure ExecutionState where
  execution_id : String
  target : String
  input_data : Payload
  status : ExecutionStatus := .queued
  result : Option Payload := none
  error : Option String := none
  priority : Nat := 0
  metrics : ExecMetrics := ⟨0, none⟩
deriving Repr, DecidableEq

/-- Modelled from the spec: set_result marks the execution succeeded,
stores the result, records the terminal time and atomically replaces
input_data with the empty value. -/
def ExecutionState.set_result (st : ExecutionState) (r : Payload)
    (now : Nat) : ExecutionState :=
  { st with
    status := .succeeded
    result := some r
    input_data := []
    metrics := ⟨st.metrics.start_time, some now⟩ }

/-- Modelled from the spec: set_error marks the execution failed, stores
the error message, records the terminal time and clears input_data. -/
def ExecutionState.set_error (st : ExecutionState) (e : String)
    (now : Nat) : ExecutionState :=
  { st with
    status := .failed
    error := some e
    input_data := []
    metrics := ⟨st.metrics.start_time, some now⟩ }

/-- Modelled from the spec: cancel marks the execution cancelled, stores
the reason, records the terminal time and clears input_data. -/
def ExecutionState.cancel (st : ExecutionState) (reason : String)
    (now : Nat) : ExecutionState :=
  { st with
    status := .cancelled
    error := some reason
    input_data := []
    metrics := ⟨st.metrics.start_time, some now⟩ }

/-- Modelled from the spec: timeout_execution marks the execution with the
distinct terminal status timeout, records the terminal time and clears
input_data. -/
def ExecutionState.timeout_execution (st : ExecutionState)
    (now : Nat) : ExecutionState :=
  { st with
    status := .timeout
    input_data := []
    metrics := ⟨st.metrics.start_time, some now⟩ }

/-- Claim C4: whenever an ExecutionState reaches a terminal status — via
set_result, set_error, cancel or timeout_execution — its input_data is
replaced with the empty value regardless of the original input, while
result and error are retained. -/
theorem C4_terminal_clears_input (st : ExecutionState) (r : Payload)
    (e reason : String) (now : Nat) :
    ((st.set_result r now).input_data = [] ∧
      (st.set_result r now).status = ExecutionStatus.succeeded ∧
      (st.set_result r now).result = some r ∧
      (st.set_result r now).error = st.error) ∧
    ((st.set_error e now).input_data = [] ∧
      (st.set_error e now).status = ExecutionStatus.failed ∧
      (st.set_error e now).error = some e ∧
      (st.set_error e now).result = st.result) ∧
    ((st.cancel reason now).input_data = [] ∧
      (st.cancel reason now).status = ExecutionStatus.cancelled ∧
      (st.cancel reason now).result = st.result) ∧
    ((st.timeout_execution now).input_data = [] ∧
      (st.timeout_execution now).status = ExecutionStatus.timeout ∧
      (st.timeout_execution now).result = st.result ∧
      (st.timeout_execution now).error = st.error) :=
  ⟨⟨rfl, rfl, rfl, rfl⟩, ⟨rfl, rfl, rfl, rfl⟩, ⟨rfl, rfl, rfl⟩,
    ⟨rfl, rfl, rfl, rfl⟩⟩

/-- Modelled from the spec: the AsyncConfig tunables, with the
memory-optimised defaults the test-suite requires as upper bounds. -/
structure AsyncConfig where
  result_cache_ttl : Nat := 120
  result_cache_max_size : Nat := 5000
  cleanup_interval : Nat := 30
  completed_execution_retention_seconds : Nat := 120
  max_completed_executions : Nat := 2000
deriving Repr, DecidableEq

/-- Modelled from the spec: the ResultCache bounded key-value store,
kept as an insertion-ordered association list, oldest entry first. -/
structure ResultCache where
  max_size : Nat
  entries : List (String × Payload)
deriving Repr, DecidableEq

/-- A fresh ResultCache configured from AsyncConfig. -/
def ResultCache.ofConfig (cfg : AsyncConfig) : ResultCache :=
  ⟨cfg.result_cache_max_size, []⟩

/-- Modelled from the spec: insertion replaces any existing entry for the
key, appends the new entry as newest, and evicts the oldest entries so the
entry count stays within max_size. -/
def ResultCache.set (c : ResultCache) (k : String) (v : Payload) :
    ResultCache :=
  let l := (c.entries.filter (fun kv => kv.1 != k)) ++ [(k, v)]
  ⟨c.max_size, l.drop (l.length - c.max_size)⟩

theorem ResultCache.set_max_size (c : ResultCache) (k : String)
    (v : Payload) : (c.set k v).max_size = c.max_size := rfl

theorem ResultCache.set_length_le (c : ResultCache) (k : String)
    (v : Payload) : (c.set k v).entries.length ≤ c.max_size := by
  simp only [ResultCache.set, List.length_drop]
  omega

theorem ResultCache.foldl_set_length_le :
    ∀ (ops : List (String × Payload)) (c : ResultCache),
      c.entries.length ≤ c.max_size →
      (ops.foldl (fun acc kv => acc.set kv.1 kv.2) c).entries.length ≤
        c.max_size
  | [], _, h => h
  | kv :: rest, c, _ =>
    ResultCache.foldl_set_length_le rest (c.set kv.1 kv.2)
      (ResultCache.set_length_le c kv.1 kv.2)

/-- Claim C7: after any insertion the ResultCache holds at most max_size
entries, and a whole sequence of insertions starting from a fresh cache
never grows past the configured maximum — extra insertions evict rather
than grow. -/
theorem C7_cache_bounded (c : ResultCache) (k : String) (v : Payload)
    (cfg : AsyncConfig) (ops : List (String × Payload)) :
    (c.set k v).entries.length ≤ c.max_size ∧
    (ops.foldl (fun acc kv => acc.set kv.1 kv.2)
        (ResultCache.ofConfig cfg)).entries.length ≤
      cfg.result_cache_max_size :=
  ⟨ResultCache.set_length_le c k v,
    ResultCache.foldl_set_length_le ops (ResultCache.ofConfig cfg)
      (Nat.zero_le _)⟩

/-- Expiry test used by cleanup: the execution is terminal and its terminal
timestamp is older than the retention window. -/
def executionExpired (e : ExecutionState) (now retention : Nat) : Bool :=
  e.status.isTerminal &&
    (match e.metrics.end_time with
      | some t => decide (t + retention < now)
      | none => false)

/-- Modelled from the spec: the Async Execution Manager's execution table
keyed by execution_id, with its configuration. -/
structure AsyncExecutionManager where
  executions : List (String × ExecutionState)
  config : AsyncConfig

/-- Modelled from the spec: cleanup_completed_executions removes every
execution whose terminal timestamp is older than the retention window. -/
def AsyncExecutionManager.cleanup_completed_executions
    (m : AsyncExecutionManager) (now : Nat) : AsyncExecutionManager :=
  ⟨m.executions.filter (fun kv =>
      !(executionExpired kv.2 now
          m.config.completed_execution_retention_seconds)),
    m.config⟩

/-- Claim C8: after cleanup_completed_executions the table contains no
execution that is terminal with a terminal timestamp older than the
retention window; in particular a succeeded execution whose end_time is
older than the window is removed. -/
theorem C8_retention_cleanup (m : AsyncExecutionManager) (now : Nat) :
    (∀ kv ∈ (m.cleanup_completed_executions now).executions,
      ¬(kv.2.status.isTerminal = true ∧
        ∃ t, kv.2.metrics.end_time = some t ∧
          t + m.config.completed_execution_retention_seconds < now)) ∧
    (∀ (eid : String) (st : ExecutionState) (t : Nat),
      st.status = ExecutionStatus.succeeded →
      st.metrics.end_time = some t →
      t + m.config.completed_execution_retention_seconds < now →
      (eid, st) ∉ (m.cleanup_completed_executions now).executions) := by
  constructor
  · rintro kv hmem ⟨hterm, t, ht, hold⟩
    have h2 : kv ∈ m.executions ∧
        executionExpired kv.2 now
          m.config.completed_execution_retention_seconds = false := by
      simpa [AsyncExecutionManager.cleanup_completed_executions] using hmem
    simp [executionExpired, hterm, ht, hold] at h2
  · intro eid st t hsucc hend hold hmem
    have h2 : (eid, st) ∈ m.executions ∧
        executionExpired st now
          m.config.completed_execution_retention_seconds = false := by
      simpa [AsyncExecutionManager.cleanup_completed_executions] using hmem
    simp [executionExpired, hend, hold, hsucc,
      ExecutionStatus.isTerminal] at h2

/-- A concrete succeeded ExecutionState whose terminal timestamp is far in
the past, used by the C8 witness. -/
def staleSucceeded : ExecutionState :=
  { execution_id := "e1"
    target := "agent.bot"
    input_data := []
    status := ExecutionStatus.succeeded
    metrics := ⟨0, some 0⟩ }

theorem C8_retention_cleanup_witness :
    ("e1", staleSucceeded) ∉
      (AsyncExecutionManager.cleanup_completed_executions
        ⟨[("e1", staleSucceeded)], {}⟩ 1000).executions :=
  (C8_retention_cleanup ⟨[("e1", staleSucceeded)], {}⟩ 1000).2
    "e1" staleSucceeded 0 rfl rfl (by decide)

/-- Connection state machine states (section 3). -/
inductive ConnectionState where
  | DISCONNECTED
  | CONNECTING
  | CONNECTED
  | RECONNECTING
  | DEGRADED
deriving Repr, DecidableEq

/-- Modelled from the spec: the observable state of the Connection Manager.
The module playground.connection_manager is missing from the sources (only
its tests are present).  Background loops are tracked as running-flags,
observer callbacks as invocation counters, and attempt_count records how
many registration attempts have been performed. -/
structure ConnectionManager where
  state : ConnectionState
  last_successful_connection : Option Nat
  health_check_running : Bool
  reconnection_running : Bool
  shutdown_requested : Bool
  on_connected_calls : Nat
  on_disconnected_calls : Nat
  attempt_count : Nat
deriving Repr, DecidableEq

/-- A freshly initialised manager: DISCONNECTED, no loops, no calls. -/
def ConnectionManager.init : ConnectionManager :=
  ⟨.DISCONNECTED, none, false, false, false, 0, 0, 0⟩

/-- Modelled from the spec: one connection attempt.  The register call's
outcome is an input: ok true is an accepted registration, ok false an
explicit rejection, and error a transport exception or timeout (the spec
treats the two identically, so both are the error shape).  Every failure
shape folds into the same failed transition; on success on_connected is
invoked and an exception it raises is caught and logged, never
propagated. -/
def ConnectionManager.attempt_connection (m : ConnectionManager)
    (reg : Except String Bool) (on_connected : Except String Unit)
    (now : Nat) : Bool × ConnectionManager :=
  let m1 : ConnectionManager :=
    { m with state := .CONNECTING, attempt_count := m.attempt_count + 1 }
  match reg with
  | .ok true =>
    let m2 : ConnectionManager :=
      { m1 with
        state := .CONNECTED
        last_successful_connection := some now
        on_connected_calls := m1.on_connected_calls + 1 }
    match on_connected with
    | .ok _ => (true, m2)
    | .error _ => (true, m2)
  | .ok false => (false, { m1 with state := .DISCONNECTED })
  | .error _ => (false, { m1 with state := .DISCONNECTED })

/-- Modelled from the spec: start performs one connection attempt.  On
success it starts the health-check loop and returns true; on failure it
transitions to DEGRADED, invokes on_disconnected (an exception it raises
is caught), starts the reconnection loop and returns false. -/
def ConnectionManager.start (m : ConnectionManager)
    (reg : Except String Bool)
    (on_connected on_disconnected : Except String Unit)
    (now : Nat) : Bool × ConnectionManager :=
  let a := m.attempt_connection reg on_connected now
  if a.1 then
    (true, { a.2 with health_check_running := true })
  else
    let m2 : ConnectionManager :=
      { a.2 with
        state := .DEGRADED
        reconnection_running := true
        on_disconnected_calls := a.2.on_disconnected_calls + 1 }
    match on_disconnected with
    | .ok _ => (false, m2)
    | .error _ => (false, m2)

/-- Modelled from the spec: force_reconnect is a no-op returning true when
already CONNECTED; otherwise it cancels any in-flight reconnection loop
and performs exactly one immediate connection attempt, starting the
health-check loop on success. -/
def ConnectionManager.force_reconnect (m : ConnectionManager)
    (reg : Except String Bool) (on_connected : Except String Unit)
    (now : Nat) : Bool × ConnectionManager :=
  if m.state = .CONNECTED then (true, m)
  else
    let m0 : ConnectionManager := { m with reconnection_running := false }
    let a := m0.attempt_connection reg on_connected now
    if a.1 then (true, { a.2 with health_check_running := true })
    else (false, a.2)

/-- Claim C5: start reports whether the single initial connection attempt
succeeded — on acceptance it returns true, sets CONNECTED, records
last_successful_connection, invokes on_connected exactly once and starts
the health-check loop; otherwise it returns false, transitions to
DEGRADED, invokes on_disconnected and starts the reconnection loop. -/
theorem C5_start_reports_initial_attempt (reg : Except String Bool)
    (cbC cbD : Except String Unit) (now : Nat) :
    (reg = Except.ok true →
      (ConnectionManager.init.start reg cbC cbD now).1 = true ∧
      (ConnectionManager.init.start reg cbC cbD now).2.state =
        ConnectionState.CONNECTED ∧
      (ConnectionManager.init.start reg cbC cbD
        now).2.last_successful_connection = some now ∧
      (ConnectionManager.init.start reg cbC cbD now).2.on_connected_calls
        = 1 ∧
      (ConnectionManager.init.start reg cbC cbD now).2.health_check_running
        = true ∧
      (ConnectionManager.init.start reg cbC cbD now).2.attempt_count = 1) ∧
    (reg ≠ Except.ok true →
      (ConnectionManager.init.start reg cbC cbD now).1 = false ∧
      (ConnectionManager.init.start reg cbC cbD now).2.state =
        ConnectionState.DEGRADED ∧
      (ConnectionManager.init.start reg cbC cbD
        now).2.on_disconnected_calls = 1 ∧
      (ConnectionManager.init.start reg cbC cbD now).2.reconnection_running
        = true ∧
      (ConnectionManager.init.start reg cbC cbD now).2.attempt_count = 1) := by
  constructor
  · rintro rfl
    cases cbC <;> cases cbD <;>
      simp [ConnectionManager.start, ConnectionManager.attempt_connection,
        ConnectionManager.init]
  · intro hne
    match reg, hne with
    | .ok true, hne => exact absurd rfl hne
    | .ok false, _ =>
      cases cbC <;> cases cbD <;>
        simp [ConnectionManager.start,
          ConnectionManager.attempt_connection, ConnectionManager.init]
    | .error e, _ =>
      cases cbC <;> cases cbD <;>
        simp [ConnectionManager.start,
          ConnectionManager.attempt_connection, ConnectionManager.init]

/-- Witness for C5 at a concrete accepted registration. -/
theorem C5_start_reports_initial_attempt_witness :
    Except.ok true = (Except.ok true : Except String Bool) ∧
    (ConnectionManager.init.start (Except.ok true) (Except.ok ())
      (Except.ok ()) 7).1 = true :=
  ⟨rfl,
    ((C5_start_reports_initial_attempt (Except.ok true) (Except.ok ())
      (Except.ok ()) 7).1 rfl).1⟩

/-- Claim C6: no exception escapes the Connection Manager — an attempt
whose transport raised or timed out returns the same result and leads to
the same state as one the coordinator explicitly rejected (there is no
separate timeout state), and an exception raised by the on_connected or
on_disconnected callback is caught without preventing the transition, the
whole result being independent of the callbacks' behaviour. -/
theorem C6_errors_folded_and_callbacks_isolated (m : ConnectionManager)
    (e : String) (now : Nat) (cb cbC cbD cbC2 cbD2 : Except String Unit)
    (reg : Except String Bool) :
    (m.attempt_connection (Except.error e) cb now =
      m.attempt_connection (Except.ok false) cb now) ∧
    (m.start (Except.error e) cbC cbD now =
      m.start (Except.ok false) cbC cbD now) ∧
    (m.start reg cbC cbD now = m.start reg cbC2 cbD2 now) ∧
    ((m.attempt_connection (Except.ok true) (Except.error e) now).2.state =
      ConnectionState.CONNECTED) := by
  refine ⟨rfl, ?_, ?_, ?_⟩
  · cases cbC <;> cases cbD <;>
      simp [ConnectionManager.start, ConnectionManager.attempt_connection]
  · cases reg with
    | ok b =>
      cases b <;> cases cbC <;> cases cbD <;> cases cbC2 <;> cases cbD2 <;>
        simp [ConnectionManager.start, ConnectionManager.attempt_connection]
    | error e2 =>
      cases cbC <;> cases cbD <;> cases cbC2 <;> cases cbD2 <;>
        simp [ConnectionManager.start, ConnectionManager.attempt_connection]
  · rfl

/-- Claim C9: force_reconnect is a no-op returning true when the state is
already CONNECTED; otherwise it cancels any in-flight reconnection loop
and performs exactly one immediate connection attempt, returning true and
starting the health-check loop when the attempt succeeds and returning
false when it fails. -/
theorem C9_force_reconnect (m : ConnectionManager)
    (reg : Except String Bool) (cb : Except String Unit) (now : Nat) :
    (m.state = ConnectionState.CONNECTED →
      m.force_reconnect reg cb now = (true, m)) ∧
    (m.state ≠ ConnectionState.CONNECTED →
      (m.force_reconnect reg cb now).2.attempt_count =
        m.attempt_count + 1 ∧
      (m.force_reconnect reg cb now).2.reconnection_running = false ∧
      (reg = Except.ok true →
        (m.force_reconnect reg cb now).1 = true ∧
        (m.force_reconnect reg cb now).2.state =
          ConnectionState.CONNECTED ∧
        (m.force_reconnect reg cb now).2.health_check_running = true) ∧
      (reg ≠ Except.ok true → (m.force_reconnect reg cb now).1 = false)) := by
  constructor
  · intro hc
    simp [ConnectionManager.force_reconnect, hc]
  · intro hnc
    have hif : (m.state = ConnectionState.CONNECTED) = False :=
      eq_false hnc
    refine ⟨?_, ?_, ?_, ?_⟩
    · match reg, cb with
      | .ok true, .ok _ =>
        simp [ConnectionManager.force_reconnect, hif,
          ConnectionManager.attempt_connection]
      | .ok true, .error _ =>
        simp [ConnectionManager.force_reconnect, hif,
          ConnectionManager.attempt_connection]
      | .ok false, _ =>
        simp [ConnectionManager.force_reconnect, hif,
          ConnectionManager.attempt_connection]
      | .error _, _ =>
        simp [ConnectionManager.force_reconnect, hif,
          ConnectionManager.attempt_connection]
    · match reg, cb with
      | .ok true, .ok _ =>
        simp [ConnectionManager.force_reconnect, hif,
          ConnectionManager.attempt_connection]
      | .ok true, .error _ =>
        simp [ConnectionManager.force_reconnect, hif,
          ConnectionManager.attempt_connection]
      | .ok false, _ =>
        simp [ConnectionManager.force_reconnect, hif,
          ConnectionManager.attempt_connection]
      | .error _, _ =>
        simp [ConnectionManager.force_reconnect, hif,
          ConnectionManager.attempt_connection]
    · rintro rfl
      cases cb <;>
        simp [ConnectionManager.force_reconnect, hif,
          ConnectionManager.attempt_connection]
    · intro hne
      match reg, hne with
      | .ok true, hne => exact absurd rfl hne
      | .ok false, _ =>
        simp [ConnectionManager.force_reconnect, hif,
          ConnectionManager.attempt_connection]
      | .error _, _ =>
        simp [ConnectionManager.force_reconnect, hif,
          ConnectionManager.attempt_connection]

/-- Witness for C9: from a fresh (DISCONNECTED) manager with an accepting
coordinator, force_reconnect returns true. -/
theorem C9_force_reconnect_witness :
    ConnectionManager.init.state ≠ ConnectionState.CONNECTED ∧
    (ConnectionManager.init.force_reconnect (Except.ok true)
      (Except.ok ()) 5).1 = true :=
  ⟨by decide,
    (((C9_force_reconnect ConnectionManager.init (Except.ok true)
      (Except.ok ()) 5).2 (by decide)).2.2.1 rfl).1⟩

/-- Lower-case one ASCII character. -/
def lowerChar (c : Char) : Char :=
  if c.toNat ≥ 65 ∧ c.toNat ≤ 90 then Char.ofNat (c.toNat + 32) else c

/-- Strip leading and trailing spaces from a character list. -/
def trimChars (l : List Char) : List Char :=
  ((l.dropWhile (fun c => c == ' ')).reverse.dropWhile
    (fun c => c == ' ')).reverse

/-- ASCII lower-casing plus whitespace trimming of a raw status string. -/
def normalizeRaw (s : String) : String :=
  String.mk ((trimChars s.data).map lowerChar)

/-- Modelled from the spec: the alias table of playground.status.  The
module is missing from the sources (only its tests are present); the table
follows the status taxonomy of section 3 together with the alias pairs the
test-suite asserts. -/
def statusAliases : List (String × String) :=
  [("succeeded", "succeeded"), ("success", "succeeded"),
    ("completed", "succeeded"), ("ok", "succeeded"),
    ("failed", "failed"), ("error", "failed"),
    ("cancelled", "cancelled"), ("canceled", "cancelled"),
    ("cancel", "cancelled"),
    ("timeout", "timeout"), ("timed_out", "timeout"),
    ("queued", "queued"), ("waiting", "queued"),
    ("running", "running"), ("in_progress", "running"),
    ("unknown", "unknown")]

/-- The canonical status vocabulary normalize_status maps into. -/
def CANONICAL_STATUSES : List String :=
  ["succeeded", "failed", "cancelled", "timeout", "queued", "running",
    "unknown"]

/-- Modelled from the spec: the terminal statuses of section 3. -/
def TERMINAL_STATUSES : List String :=
  ["succeeded", "failed", "cancelled", "timeout"]

/-- Modelled from the spec: normalize_status trims and lower-cases its
input, maps recognised aliases to their canonical status, and returns
unknown for null, empty or unrecognised input. -/
def normalize_status : Option String → String
  | none => "unknown"
  | some raw =>
    match statusAliases.lookup (normalizeRaw raw) with
    | some c => c
    | none => "unknown"

/-- Modelled from the spec: a status string is terminal exactly when it is
a member of TERMINAL_STATUSES. -/
def is_terminal (s : String) : Bool :=
  decide (s ∈ TERMINAL_STATUSES)

theorem lookup_mem_snd :
    ∀ (l : List (String × String)) (k v : String),
      l.lookup k = some v → v ∈ l.map Prod.snd
  | [], _, _, h => by simp [List.lookup] at h
  | (a, b) :: rest, k, v, h => by
    simp only [List.lookup] at h
    split at h
    · simp only [Option.some.injEq] at h
      simp [h]
    · have := lookup_mem_snd rest k v h
      simp [this]

theorem normalize_status_mem_canonical (s : Option String) :
    normalize_status s ∈ CANONICAL_STATUSES := by
  cases s with
  | none => simp [normalize_status, CANONICAL_STATUSES]
  | some raw =>
    simp only [normalize_status]
    cases h : statusAliases.lookup (normalizeRaw raw) with
    | none => simp [CANONICAL_STATUSES]
    | some c =>
      have hmem := lookup_mem_snd _ _ _ h
      fin_cases hmem <;> simp [CANONICAL_STATUSES]

/-- Claim C10: normalize_status is total — every input, including null,
the empty string, whitespace-padded, mixed-case and unrecognised strings,
maps into the canonical status set, with recognised aliases mapped to
their canonical status and everything else to unknown; and is_terminal
holds exactly on membership in TERMINAL_STATUSES, in particular failing on
queued, running, pending and unknown. -/
theorem C10_status_normalization (s : Option String) (t : String) :
    normalize_status s ∈ CANONICAL_STATUSES ∧
    (normalize_status (some "  SUCCEEDED  ") = "succeeded" ∧
      normalize_status (some "Success") = "succeeded" ∧
      normalize_status (some "COMPLETED") = "succeeded" ∧
      normalize_status (some "ok") = "succeeded" ∧
      normalize_status (some "FAILED") = "failed" ∧
      normalize_status (some "error") = "failed" ∧
      normalize_status (some "canceled") = "cancelled" ∧
      normalize_status (some "cancel") = "cancelled" ∧
      normalize_status (some "timed_out") = "timeout" ∧
      normalize_status (some "WAITING") = "queued" ∧
      normalize_status (some "in_progress") = "running" ∧
      normalize_status (some "") = "unknown" ∧
      normalize_status none = "unknown" ∧
      normalize_status (some "mystery") = "unknown") ∧
    (is_terminal t = true ↔ t ∈ TERMINAL_STATUSES) ∧
    (is_terminal "queued" = false ∧ is_terminal "running" = false ∧
      is_terminal "pending" = false ∧ is_terminal "unknown" = false) :=
  ⟨normalize_status_mem_canonical s, by decide, by simp [is_terminal],
    by decide⟩

end Playground
